import Mathlib

/-!
Shallow embedding of the Bitbucket→Slack PR-notification bot's webhook
dispatcher and its PostgreSQL-backed store, for verification of the
specification's claims about it.

Sources embedded:
  * the webhook handler (package bitbucket): `Handle`, the per-event
    reconciliation routines `onPRCreated` … `onCommitStatus`, the pure
    renderer `buildPRBlocks` and its helpers, and `verifySignature`;
  * the store (package store, file repo_store.go): each table is a list
    of rows and each SQL statement becomes the corresponding pure list
    operation (upsert-by-primary-key, filter, lookup).

Modelling conventions:
  * Go strings are Lean `String`s; Go `len` and slicing are byte-based
    while `String.data` counts `Char`s — the two coincide on the
    single-byte (ASCII) inputs the claims quantify over, and the
    embedding uses `String.data` explicitly where lengths matter.
  * The database never fails in the model: every query/exec succeeds.
    Error branches in the Go code that merely log and fall through are
    therefore the only executed branches; error branches that abort the
    handler are unreachable in the model.
  * The Slack client is the only external effect: outbound calls are
    reified as an `Effect` list.  `PostMessage`'s returned timestamp is
    modelled by a parameter `postRes : String → Option String` giving,
    per channel, the ts of the message posted in this invocation
    (`none` models a post whose result the handler treats as an error
    and skips saving for).
  * HMAC-SHA256 (Go stdlib `crypto/hmac` + `crypto/sha256`, external to
    the repository) is abstracted as a parameter
    `mac : String → String → String` mapping (secret, body) to the
    hex-encoded digest; `hmac.Equal` on two ordinary strings is string
    equality.
  * `json.Unmarshal` (Go stdlib) is abstracted as parameters
    `parsePR` / `parseCS` returning `Option` payloads.
-/

/-- Row of table repo_subscriptions: UNIQUE(channel_id, repo_slug). -/
structure SubscriptionRow where
  channelID : String
  teamID : String
  repoSlug : String
deriving DecidableEq

/-- Row of table pr_messages: PRIMARY KEY (repo_slug, pr_id, channel_id). -/
structure PRMessageRow where
  repoSlug : String
  prID : Int
  channelID : String
  messageTS : String
deriving DecidableEq

/-- Row of table pr_approvals: PRIMARY KEY (repo_slug, pr_id, user_name). -/
structure ApprovalRow where
  repoSlug : String
  prID : Int
  userName : String
deriving DecidableEq

/-- Row of table user_mappings: slack_user_id PRIMARY KEY, bitbucket_username UNIQUE. -/
structure UserMappingRow where
  slackUserID : String
  bitbucketUsername : String
deriving DecidableEq

/-- Go struct store.PRCommitRecord; row of table pr_commits with
PRIMARY KEY (repo_slug, pr_id).  reviewer_names is stored as JSON but
read back as the same list, so it is kept as a list here. -/
structure PRCommitRecord where
  repoSlug : String
  prID : Int
  commitHash : String
  title : String
  url : String
  authorName : String
  reviewerNames : List String
  sourceBranch : String
  destBranch : String
deriving DecidableEq

/-- Row of table build_statuses: PRIMARY KEY (repo_slug, commit_hash).
The updated_at column is set to NOW() on every write and never read by
the handler, so it is omitted. -/
structure BuildStatusRow where
  repoSlug : String
  commitHash : String
  state : String
  name : String
  url : String
deriving DecidableEq

/-- Row of table webhook_secrets: repo_slug PRIMARY KEY. -/
structure WebhookSecretRow where
  repoSlug : String
  secret : String
deriving DecidableEq

/-- Go struct store.BuildStatus (the projection GetBuildStatus returns). -/
structure BuildStatus where
  state : String
  name : String
  url : String
deriving DecidableEq

/-- The whole persistent store: one list of rows per table touched by the
webhook handler (tables bitbucket_tokens is untouched by it and omitted). -/
structure StoreState where
  subscriptions : List SubscriptionRow
  prMessages : List PRMessageRow
  prApprovals : List ApprovalRow
  userMappings : List UserMappingRow
  prCommits : List PRCommitRecord
  buildStatuses : List BuildStatusRow
  webhookSecrets : List WebhookSecretRow
deriving DecidableEq

/-- RepoStore.ChannelsForRepo: SELECT channel_id FROM repo_subscriptions
WHERE repo_slug = $1. -/
def channelsForRepo (rows : List SubscriptionRow) (repoSlug : String) : List String :=
  (rows.filter (fun r => r.repoSlug == repoSlug)).map (fun r => r.channelID)

/-- Primary-key predicate of pr_messages. -/
def msgKeyMatch (repoSlug : String) (prID : Int) (channelID : String) (r : PRMessageRow) : Bool :=
  r.repoSlug == repoSlug && r.prID == prID && r.channelID == channelID

/-- RepoStore.SavePRMessage: INSERT … ON CONFLICT (repo_slug, pr_id,
channel_id) DO UPDATE SET message_ts = EXCLUDED.message_ts. -/
def savePRMessage (rows : List PRMessageRow) (repoSlug : String) (prID : Int)
    (channelID messageTS : String) : List PRMessageRow :=
  if rows.any (msgKeyMatch repoSlug prID channelID) then
    rows.map (fun r => if msgKeyMatch repoSlug prID channelID r
      then { r with messageTS := messageTS } else r)
  else
    rows ++ [⟨repoSlug, prID, channelID, messageTS⟩]

/-- RepoStore.GetPRMessages: SELECT channel_id, message_ts FROM
pr_messages WHERE repo_slug = $1 AND pr_id = $2. -/
def getPRMessages (rows : List PRMessageRow) (repoSlug : String) (prID : Int) : List PRMessageRow :=
  rows.filter (fun r => r.repoSlug == repoSlug && r.prID == prID)

/-- Primary-key predicate of pr_approvals. -/
def approvalKeyMatch (repoSlug : String) (prID : Int) (userName : String) (r : ApprovalRow) : Bool :=
  r.repoSlug == repoSlug && r.prID == prID && r.userName == userName

/-- RepoStore.AddApproval: INSERT … ON CONFLICT DO NOTHING. -/
def addApproval (rows : List ApprovalRow) (repoSlug : String) (prID : Int)
    (userName : String) : List ApprovalRow :=
  if rows.any (approvalKeyMatch repoSlug prID userName) then rows
  else rows ++ [⟨repoSlug, prID, userName⟩]

/-- RepoStore.RemoveApproval: DELETE FROM pr_approvals WHERE repo_slug =
$1 AND pr_id = $2 AND user_name = $3. -/
def removeApproval (rows : List ApprovalRow) (repoSlug : String) (prID : Int)
    (userName : String) : List ApprovalRow :=
  rows.filter (fun r => !(approvalKeyMatch repoSlug prID userName r))

/-- RepoStore.GetApprovals: SELECT user_name … ORDER BY ctid (physical
insertion order, which in the model is list order). -/
def getApprovals (rows : List ApprovalRow) (repoSlug : String) (prID : Int) : List String :=
  (rows.filter (fun r => r.repoSlug == repoSlug && r.prID == prID)).map (fun r => r.userName)

/-- RepoStore.GetSlackUserByBitbucket: returns the linked Slack user id
or "" if no mapping exists. -/
def getSlackUserByBitbucket (rows : List UserMappingRow) (bitbucketUsername : String) : String :=
  match rows.find? (fun r => r.bitbucketUsername == bitbucketUsername) with
  | some r => r.slackUserID
  | none => ""

/-- RepoStore.GetWebhookSecret: returns the secret or "" if not set. -/
def getWebhookSecret (rows : List WebhookSecretRow) (repoSlug : String) : String :=
  match rows.find? (fun r => r.repoSlug == repoSlug) with
  | some r => r.secret
  | none => ""

/-- RepoStore.SavePRCommit: INSERT … ON CONFLICT (repo_slug, pr_id) DO
UPDATE SET every non-key column from EXCLUDED, i.e. replace the row. -/
def savePRCommit (rows : List PRCommitRecord) (rec : PRCommitRecord) : List PRCommitRecord :=
  if rows.any (fun r => r.repoSlug == rec.repoSlug && r.prID == rec.prID) then
    rows.map (fun r => if r.repoSlug == rec.repoSlug && r.prID == rec.prID then rec else r)
  else
    rows ++ [rec]

/-- RepoStore.GetPRCommit: returns the cached PR info, nil if not found. -/
def getPRCommit (rows : List PRCommitRecord) (repoSlug : String) (prID : Int) : Option PRCommitRecord :=
  rows.find? (fun r => r.repoSlug == repoSlug && r.prID == prID)

/-- RepoStore.GetPRsByCommit: SELECT pr_id FROM pr_commits WHERE
repo_slug = $1 AND commit_hash = $2. -/
def getPRsByCommit (rows : List PRCommitRecord) (repoSlug commitHash : String) : List Int :=
  (rows.filter (fun r => r.repoSlug == repoSlug && r.commitHash == commitHash)).map (fun r => r.prID)

/-- RepoStore.SaveBuildStatus: INSERT … ON CONFLICT (repo_slug,
commit_hash) DO UPDATE SET state, name, url (and updated_at = NOW(),
omitted). -/
def saveBuildStatus (rows : List BuildStatusRow) (repoSlug commitHash state name buildURL : String) :
    List BuildStatusRow :=
  if rows.any (fun r => r.repoSlug == repoSlug && r.commitHash == commitHash) then
    rows.map (fun r => if r.repoSlug == repoSlug && r.commitHash == commitHash
      then { r with state := state, name := name, url := buildURL } else r)
  else
    rows ++ [⟨repoSlug, commitHash, state, name, buildURL⟩]

/-- RepoStore.GetBuildStatus: returns the latest build status, nil if
not found. -/
def getBuildStatus (rows : List BuildStatusRow) (repoSlug commitHash : String) : Option BuildStatus :=
  match rows.find? (fun r => r.repoSlug == repoSlug && r.commitHash == commitHash) with
  | some r => some ⟨r.state, r.name, r.url⟩
  | none => none

/-- Go struct bbPullRequest, with the single-field nested structs
(source.branch.name, source.commit.hash, destination.branch.name,
author.display_name, links.html.href, reviewers[i].display_name)
flattened to their one field each. -/
structure bbPullRequest where
  id : Int
  title : String
  sourceBranchName : String
  sourceCommitHash : String
  destBranchName : String
  authorDisplayName : String
  reviewers : List String
  htmlHref : String
deriving DecidableEq

/-- Go struct bbEventPayload (actor.display_name, repository.full_name
and comment.content.raw flattened). -/
structure bbEventPayload where
  actorDisplayName : String
  pullRequest : bbPullRequest
  repositoryFullName : String
  commentRaw : String
deriving DecidableEq

/-- Go struct bbCommitStatusPayload (repository.full_name and the
commit_status fields flattened). -/
structure bbCommitStatusPayload where
  repositoryFullName : String
  state : String
  name : String
  url : String
  commitHash : String
deriving DecidableEq

/-- Slack Block Kit output of buildPRBlocks, reduced to the data the
handler puts in it: a two-column section (the two markdown texts), a
divider, or a context block (its markdown text). -/
inductive Block where
  | sectionRow (left right : String) : Block
  | divider : Block
  | context (text : String) : Block
deriving DecidableEq

/-- One outbound Slack API call made by the handler. -/
inductive Effect where
  | postMessage (channel : String) (blocks : List Block) : Effect
  | updateMessage (channel messageTS : String) (blocks : List Block) : Effect
  | postThread (channel messageTS : String) (text : String) : Effect
deriving DecidableEq

/-- Go struct prCard: all data needed to build a PR Slack card. -/
structure prCard where
  title : String
  prURL : String
  repoFullName : String
  sourceBranch : String
  destBranch : String
  authorLabel : String
  reviewers : String
  buildLabel : String
  statusLine : String
deriving DecidableEq

/-- WebhookHandler.resolveUser: "<@USERID>" if a mapping exists,
"*DisplayName*" otherwise. -/
def resolveUser (st : StoreState) (displayName : String) : String :=
  let id := getSlackUserByBitbucket st.userMappings displayName
  if id ≠ "" then "<@" ++ id ++ ">" else "*" ++ displayName ++ "*"

/-- WebhookHandler.resolveReviewers: all reviewers resolved and joined
with ", ", or "—" when there are none. -/
def resolveReviewers (st : StoreState) (pr : bbPullRequest) : String :=
  if pr.reviewers.isEmpty then "—"
  else String.intercalate ", " (pr.reviewers.map (resolveUser st))

/-- formatBuildLabel: emoji for the build state plus a link or plain name. -/
def formatBuildLabel (state name url : String) : String :=
  let emoji :=
    if state.toUpper == "INPROGRESS" then ":hourglass_flowing_sand:"
    else if state.toUpper == "SUCCESSFUL" then ":white_check_mark:"
    else if state.toUpper == "FAILED" then ":x:"
    else if state.toUpper == "STOPPED" then ":octagonal_sign:"
    else ":grey_question:"
  if url ≠ "" then emoji ++ " <" ++ url ++ "|" ++ name ++ ">"
  else emoji ++ " " ++ name

/-- WebhookHandler.getBuildLabel: current build status from the store,
"—" if the commit is empty or no status is recorded. -/
def getBuildLabel (st : StoreState) (repoSlug commitHash : String) : String :=
  if commitHash = "" then "—"
  else match getBuildStatus st.buildStatuses repoSlug commitHash with
    | none => "—"
    | some bs => formatBuildLabel bs.state bs.name bs.url

/-- WebhookHandler.buildCardFromPayload: card from a PR event payload,
falling back to the stored commit hash when the payload has none. -/
def buildCardFromPayload (st : StoreState) (p : bbEventPayload) (statusLine : String) : prCard :=
  let commitHash :=
    if p.pullRequest.sourceCommitHash = "" then
      match getPRCommit st.prCommits p.repositoryFullName p.pullRequest.id with
      | some rec => rec.commitHash
      | none => ""
    else p.pullRequest.sourceCommitHash
  { title := p.pullRequest.title
    prURL := p.pullRequest.htmlHref
    repoFullName := p.repositoryFullName
    sourceBranch := p.pullRequest.sourceBranchName
    destBranch := p.pullRequest.destBranchName
    authorLabel := resolveUser st p.pullRequest.authorDisplayName
    reviewers := resolveReviewers st p.pullRequest
    buildLabel := getBuildLabel st p.repositoryFullName commitHash
    statusLine := statusLine }

/-- buildApprovalStatus: a status line listing all approvers, or "" if
none. -/
def buildApprovalStatus (resolved : List String) : String :=
  if resolved.isEmpty then ""
  else ":white_check_mark: Approved by " ++ String.intercalate ", " resolved

/-- buildStatusReply: thread-reply text for a build state/name/url. -/
def buildStatusReply (state name url : String) : String :=
  let pre :=
    if state.toUpper == "INPROGRESS" then ":hourglass_flowing_sand: Build started"
    else if state.toUpper == "SUCCESSFUL" then ":white_check_mark: Build passed"
    else if state.toUpper == "FAILED" then ":x: Build failed"
    else if state.toUpper == "STOPPED" then ":octagonal_sign: Build stopped"
    else ":grey_question: Build: " ++ state
  if url ≠ "" then pre ++ ": <" ++ url ++ "|" ++ name ++ ">"
  else if name ≠ "" then pre ++ ": " ++ name
  else pre

/-- buildPRBlocks: the Slack Block Kit card — three two-column section
rows each followed by a divider, plus a context block holding the
status line when it is non-empty. -/
def buildPRBlocks (card : prCard) : List Block :=
  let repoURL := "https://bitbucket.org/" ++ card.repoFullName
  let base : List Block :=
    [Block.sectionRow ("*Pull request*\n*<" ++ card.prURL ++ "|" ++ card.title ++ ">*")
        ("*Repository*\n<" ++ repoURL ++ "|" ++ card.repoFullName ++ ">"),
      Block.divider,
      Block.sectionRow ("*Build*\n" ++ card.buildLabel)
        ("*Branch*\n`" ++ card.sourceBranch ++ "` → `" ++ card.destBranch ++ "`"),
      Block.divider,
      Block.sectionRow ("*Reviewers*\n" ++ card.reviewers)
        ("*Author*\n" ++ card.authorLabel),
      Block.divider]
  if card.statusLine ≠ "" then base ++ [Block.context card.statusLine] else base

/-- WebhookHandler.updateAndReply: update the original message and post
a thread reply under every stored pointer; with no pointers, fall back
to a fresh standalone message in every subscribed channel (whose result
is discarded — the fallback records no pointer). -/
def updateAndReply (st : StoreState) (repoSlug : String) (prID : Int)
    (blocks : List Block) (replyText : String) : List Effect :=
  let msgs := getPRMessages st.prMessages repoSlug prID
  if msgs.isEmpty then
    (channelsForRepo st.subscriptions repoSlug).map (fun ch => Effect.postMessage ch blocks)
  else
    msgs.flatMap (fun m =>
      [Effect.updateMessage m.channelID m.messageTS blocks,
        Effect.postThread m.channelID m.messageTS replyText])

/-- WebhookHandler.threadReply: post text as a thread reply under every
stored pointer; nothing is posted when there is none. -/
def threadReply (st : StoreState) (repoSlug : String) (prID : Int) (text : String) : List Effect :=
  (getPRMessages st.prMessages repoSlug prID).map (fun m =>
    Effect.postThread m.channelID m.messageTS text)

/-- The PRCommitRecord persisted by onPRCreated, taken verbatim from the
payload. -/
def prCommitRecordOf (p : bbEventPayload) : PRCommitRecord :=
  { repoSlug := p.repositoryFullName
    prID := p.pullRequest.id
    commitHash := p.pullRequest.sourceCommitHash
    title := p.pullRequest.title
    url := p.pullRequest.htmlHref
    authorName := p.pullRequest.authorDisplayName
    reviewerNames := p.pullRequest.reviewers
    sourceBranch := p.pullRequest.sourceBranchName
    destBranch := p.pullRequest.destBranchName }

/-- One iteration of onPRCreated's channel loop: post (its attempt is in
the effect list separately), and if the post succeeded with ts, save the
pointer; on post error, continue without saving. -/
def createdSaveStep (repoSlug : String) (prID : Int) (postRes : String → Option String)
    (st : StoreState) (channelID : String) : StoreState :=
  match postRes channelID with
  | none => st
  | some ts => { st with prMessages := savePRMessage st.prMessages repoSlug prID channelID ts }

/-- WebhookHandler.onPRCreated: look up subscribed channels (returning
immediately when there are none), persist the PR commit record, then
post the card to every channel and save each returned message ts. -/
def onPRCreated (postRes : String → Option String) (st : StoreState) (p : bbEventPayload) :
    StoreState × List Effect :=
  let channels := channelsForRepo st.subscriptions p.repositoryFullName
  if channels.isEmpty then (st, [])
  else
    let card := buildCardFromPayload st p ""
    let blocks := buildPRBlocks card
    let st1 := { st with prCommits := savePRCommit st.prCommits (prCommitRecordOf p) }
    let st2 := channels.foldl (createdSaveStep p.repositoryFullName p.pullRequest.id postRes) st1
    (st2, channels.map (fun ch => Effect.postMessage ch blocks))

/-- WebhookHandler.onPRMerged: re-render the card with a terminal status
line and update + thread-reply via updateAndReply. -/
def onPRMerged (st : StoreState) (p : bbEventPayload) : StoreState × List Effect :=
  let actor := resolveUser st p.actorDisplayName
  let card := buildCardFromPayload st p (":tada: Merged by " ++ actor)
  (st, updateAndReply st p.repositoryFullName p.pullRequest.id (buildPRBlocks card) card.statusLine)

/-- WebhookHandler.onPRDeclined: like onPRMerged with the declined
status line. -/
def onPRDeclined (st : StoreState) (p : bbEventPayload) : StoreState × List Effect :=
  let actor := resolveUser st p.actorDisplayName
  let card := buildCardFromPayload st p (":x: Declined by " ++ actor)
  (st, updateAndReply st p.repositoryFullName p.pullRequest.id (buildPRBlocks card) card.statusLine)

/-- Approver names for a PR read back after a mutation, resolved to
Slack labels in stored order. -/
def resolvedApprovers (st : StoreState) (repoSlug : String) (prID : Int) : List String :=
  (getApprovals st.prApprovals repoSlug prID).map (resolveUser st)

/-- WebhookHandler.onPRApproved: record the approval, re-render the card
with the approver status line, and update + thread-reply. -/
def onPRApproved (st : StoreState) (p : bbEventPayload) : StoreState × List Effect :=
  let st1 := { st with
    prApprovals := addApproval st.prApprovals p.repositoryFullName p.pullRequest.id p.actorDisplayName }
  let actor := resolveUser st1 p.actorDisplayName
  let card := buildCardFromPayload st1 p
    (buildApprovalStatus (resolvedApprovers st1 p.repositoryFullName p.pullRequest.id))
  let reply := ":white_check_mark: " ++ actor ++ " approved this PR"
  (st1, updateAndReply st1 p.repositoryFullName p.pullRequest.id (buildPRBlocks card) reply)

/-- WebhookHandler.onPRUnapproved: remove the approval, re-render the
card with the (possibly empty) approver status line, and update +
thread-reply. -/
def onPRUnapproved (st : StoreState) (p : bbEventPayload) : StoreState × List Effect :=
  let st1 := { st with
    prApprovals := removeApproval st.prApprovals p.repositoryFullName p.pullRequest.id p.actorDisplayName }
  let actor := resolveUser st1 p.actorDisplayName
  let card := buildCardFromPayload st1 p
    (buildApprovalStatus (resolvedApprovers st1 p.repositoryFullName p.pullRequest.id))
  let reply := ":leftwards_arrow_with_hook: " ++ actor ++ " removed their approval"
  (st1, updateAndReply st1 p.repositoryFullName p.pullRequest.id (buildPRBlocks card) reply)

/-- Comment-body truncation in onPRComment: Go len/slicing on the raw
body (byte counts; identical to these Char counts on single-byte
input), capping at 300 with an appended ellipsis. -/
def truncateComment (text : String) : String :=
  if text.data.length > 300 then String.mk (text.data.take 300) ++ "…" else text

/-- The thread-reply text onPRComment posts. -/
def commentReply (actor truncated : String) : String :=
  ":speech_balloon: " ++ actor ++ " commented:\n>" ++ truncated

/-- WebhookHandler.onPRComment: post the (possibly truncated) comment as
a thread reply under every stored pointer; mutates nothing. -/
def onPRComment (st : StoreState) (p : bbEventPayload) : StoreState × List Effect :=
  let text := truncateComment p.commentRaw
  let actor := resolveUser st p.actorDisplayName
  (st, threadReply st p.repositoryFullName p.pullRequest.id (commentReply actor text))

/-- The per-pointer effects onCommitStatus emits for one affected PR. -/
def commitStatusEffectsForPR (st : StoreState) (repoSlug : String) (blocksOf : Int → List Block)
    (replyText : String) (prID : Int) : List Effect :=
  match getPRCommit st.prCommits repoSlug prID with
  | none => []
  | some _ =>
    (getPRMessages st.prMessages repoSlug prID).flatMap (fun m =>
      [Effect.updateMessage m.channelID m.messageTS (blocksOf prID),
        Effect.postThread m.channelID m.messageTS replyText])

/-- The card onCommitStatus rebuilds for one affected PR from the stored
PRCommitRecord (its fields, resolved) and the new build label. -/
def commitStatusCard (st : StoreState) (repoSlug : String) (buildLabel : String)
    (rec : PRCommitRecord) : prCard :=
  { title := rec.title
    prURL := rec.url
    repoFullName := repoSlug
    sourceBranch := rec.sourceBranch
    destBranch := rec.destBranch
    authorLabel := resolveUser st rec.authorName
    reviewers :=
      if rec.reviewerNames.isEmpty then "—"
      else String.intercalate ", " (rec.reviewerNames.map (resolveUser st))
    buildLabel := buildLabel
    statusLine := buildApprovalStatus (resolvedApprovers st repoSlug rec.prID) }

/-- WebhookHandler.onCommitStatus: upsert the build status, then for
every PR whose stored source commit matches the hash, re-render its
card and update + thread-reply under every stored pointer. -/
def onCommitStatus (st : StoreState) (p : bbCommitStatusPayload) : StoreState × List Effect :=
  let st1 := { st with
    buildStatuses := saveBuildStatus st.buildStatuses p.repositoryFullName p.commitHash p.state p.name p.url }
  let prIDs := getPRsByCommit st1.prCommits p.repositoryFullName p.commitHash
  let buildLabel := formatBuildLabel p.state p.name p.url
  let replyText := buildStatusReply p.state p.name p.url
  let blocksOf : Int → List Block := fun prID =>
    match getPRCommit st1.prCommits p.repositoryFullName prID with
    | none => []
    | some rec => buildPRBlocks (commitStatusCard st1 p.repositoryFullName buildLabel rec)
  (st1, prIDs.flatMap (commitStatusEffectsForPR st1 p.repositoryFullName blocksOf replyText))

/-- verifySignature: the X-Hub-Signature header must carry the
"sha256=" algorithm tag and equal "sha256=" ++ the hex HMAC-SHA256
digest of the body under the secret (hmac.Equal on equal-length inputs
is plain equality; mac abstracts the Go stdlib digest). -/
def verifySignature (mac : String → String → String) (secret body signature : String) : Bool :=
  if !("sha256=".data.isPrefixOf signature.data) then false
  else ("sha256=" ++ mac secret body) == signature

/-- The eight event kinds Handle recognizes. -/
def recognizedEvent (event : String) : Bool :=
  event == "pullrequest:created" || event == "pullrequest:fulfilled" ||
  event == "pullrequest:rejected" || event == "pullrequest:approved" ||
  event == "pullrequest:unapproved" || event == "pullrequest:comment_created" ||
  event == "repo:commit_status_created" || event == "repo:commit_status_updated"

/-- The two commit-status kinds, which Handle routes early. -/
def isCommitStatusEvent (event : String) : Bool :=
  event == "repo:commit_status_created" || event == "repo:commit_status_updated"

/-- HTTP-level outcome of Handle. -/
inductive HandleResult where
  | okIgnored : HandleResult
  | okAccepted : HandleResult
  | badRequest : HandleResult
  | unauthorized : HandleResult
deriving DecidableEq

/-- WebhookHandler.Handle: classify the event (unrecognized kinds are
accepted and dropped); route commit-status events early — before any
signature check — to onCommitStatus; otherwise parse the PR payload,
verify the HMAC signature when a webhook secret is stored for the
repository (mismatch rejects with 401 before any dispatch), and
dispatch to the per-kind routine. -/
def Handle (mac : String → String → String)
    (parsePR : String → Option bbEventPayload)
    (parseCS : String → Option bbCommitStatusPayload)
    (postRes : String → Option String)
    (st : StoreState) (event body signature : String) :
    HandleResult × StoreState × List Effect :=
  if !recognizedEvent event then (HandleResult.okIgnored, st, [])
  else if isCommitStatusEvent event then
    match parseCS body with
    | none => (HandleResult.badRequest, st, [])
    | some p =>
      let r := onCommitStatus st p
      (HandleResult.okAccepted, r.1, r.2)
  else
    match parsePR body with
    | none => (HandleResult.badRequest, st, [])
    | some payload =>
      let secret := getWebhookSecret st.webhookSecrets payload.repositoryFullName
      if secret ≠ "" && !verifySignature mac secret body signature then
        (HandleResult.unauthorized, st, [])
      else
        let r :=
          if event == "pullrequest:created" then onPRCreated postRes st payload
          else if event == "pullrequest:fulfilled" then onPRMerged st payload
          else if event == "pullrequest:rejected" then onPRDeclined st payload
          else if event == "pullrequest:approved" then onPRApproved st payload
          else if event == "pullrequest:unapproved" then onPRUnapproved st payload
          else onPRComment st payload
        (HandleResult.okAccepted, r.1, r.2)

/-- Primary key of a pr_messages row. -/
def msgKey (r : PRMessageRow) : String × Int × String :=
  (r.repoSlug, r.prID, r.channelID)

/-- The pr_messages PRIMARY KEY constraint: no two rows share a key. -/
def UniqueMsgKeys (rows : List PRMessageRow) : Prop :=
  rows.Pairwise (fun a b => msgKey a ≠ msgKey b)

/-- Sample pull request used on concrete inputs. -/
def samplePR : bbPullRequest :=
  { id := 7
    title := "Fix the build"
    sourceBranchName := "feature/x"
    sourceCommitHash := "abc123"
    destBranchName := "main"
    authorDisplayName := "carol"
    reviewers := []
    htmlHref := "https://bitbucket.org/acme/site/pull-requests/7" }

/-- Sample PR event payload used on concrete inputs. -/
def samplePayload : bbEventPayload :=
  { actorDisplayName := "carol"
    pullRequest := samplePR
    repositoryFullName := "acme/site"
    commentRaw := "looks good" }

/-- Sample commit-status payload used on concrete inputs. -/
def sampleCS : bbCommitStatusPayload :=
  { repositoryFullName := "acme/site"
    state := "FAILED"
    name := "ci"
    url := ""
    commitHash := "abc123" }

/-- Store with no rows at all. -/
def stEmpty : StoreState := ⟨[], [], [], [], [], [], []⟩

/-- Store holding only a webhook secret for acme/site. -/
def stSecretOnly : StoreState := ⟨[], [], [], [], [], [], [⟨"acme/site", "s3c"⟩]⟩

/-- Store where channel C1 subscribes to acme/site. -/
def stOneSub : StoreState := ⟨[⟨"C1", "T1", "acme/site"⟩], [], [], [], [], [], []⟩

/-- Store where channel C1 subscribes to acme/site and already holds the
live card pointer 111.222 for PR 7. -/
def stPointer : StoreState :=
  ⟨[⟨"C1", "T1", "acme/site"⟩], [⟨"acme/site", 7, "C1", "111.222"⟩], [], [], [], [], []⟩

theorem approvalKeyMatch_iff (repoSlug : String) (prID : Int) (userName : String) (r : ApprovalRow) :
    approvalKeyMatch repoSlug prID userName r = true ↔ r = ⟨repoSlug, prID, userName⟩ := by
  cases r
  simp [approvalKeyMatch, and_assoc]

theorem msgKeyMatch_iff (repoSlug : String) (prID : Int) (channelID : String) (r : PRMessageRow) :
    msgKeyMatch repoSlug prID channelID r = true ↔ msgKey r = (repoSlug, prID, channelID) := by
  cases r
  simp [msgKeyMatch, msgKey, and_assoc]

theorem msgKey_set_ts (r : PRMessageRow) (ts : String) (c : Bool) :
    msgKey (if c then { r with messageTS := ts } else r) = msgKey r := by
  cases c <;> rfl

theorem savePRMessage_unique (rows : List PRMessageRow) (repoSlug : String) (prID : Int)
    (channelID messageTS : String) (h : UniqueMsgKeys rows) :
    UniqueMsgKeys (savePRMessage rows repoSlug prID channelID messageTS) := by
  rw [savePRMessage]
  split
  · rw [UniqueMsgKeys, List.pairwise_map]
    refine h.imp_of_mem ?_
    intro a b ha hb hne
    rw [msgKey_set_ts, msgKey_set_ts]
    exact hne
  · rename_i hany
    rw [UniqueMsgKeys, List.pairwise_append]
    refine ⟨h, List.pairwise_singleton _ _, ?_⟩
    intro a ha b hb
    have hb2 : b = (⟨repoSlug, prID, channelID, messageTS⟩ : PRMessageRow) := by
      simpa using hb
    subst hb2
    intro hk
    apply hany
    rw [List.any_eq_true]
    exact ⟨a, ha, (msgKeyMatch_iff _ _ _ _).mpr (by simpa [msgKey] using hk)⟩

theorem unique_filter_length_le_one (rows : List PRMessageRow) (h : UniqueMsgKeys rows)
    (repoSlug : String) (prID : Int) (channelID : String) :
    (rows.filter (msgKeyMatch repoSlug prID channelID)).length ≤ 1 := by
  induction rows with
  | nil => simp
  | cons r t ih =>
    rw [UniqueMsgKeys, List.pairwise_cons] at h
    rw [List.filter_cons]
    split
    · rename_i hr
      have ht : t.filter (msgKeyMatch repoSlug prID channelID) = [] := by
        rw [List.filter_eq_nil_iff]
        intro b hb hbk
        have h1 := (msgKeyMatch_iff _ _ _ _).mp hr
        have h2 := (msgKeyMatch_iff _ _ _ _).mp hbk
        exact h.1 b hb (h1.trans h2.symm)
      rw [ht]
      simp
    · exact ih h.2

theorem createdSaveStep_unique (repoSlug : String) (prID : Int) (postRes : String → Option String)
    (st : StoreState) (ch : String) (h : UniqueMsgKeys st.prMessages) :
    UniqueMsgKeys (createdSaveStep repoSlug prID postRes st ch).prMessages := by
  rw [createdSaveStep]
  cases postRes ch with
  | none => exact h
  | some ts => exact savePRMessage_unique _ _ _ _ _ h

theorem foldl_createdSaveStep_unique (repoSlug : String) (prID : Int)
    (postRes : String → Option String) (l : List String) (st : StoreState)
    (h : UniqueMsgKeys st.prMessages) :
    UniqueMsgKeys ((l.foldl (createdSaveStep repoSlug prID postRes) st).prMessages) := by
  induction l generalizing st with
  | nil => exact h
  | cons c t ih => exact ih _ (createdSaveStep_unique repoSlug prID postRes st c h)

theorem createdSaveStep_prCommits (repoSlug : String) (prID : Int)
    (postRes : String → Option String) (st : StoreState) (ch : String) :
    (createdSaveStep repoSlug prID postRes st ch).prCommits = st.prCommits := by
  rw [createdSaveStep]
  cases postRes ch <;> rfl

theorem foldl_createdSaveStep_prCommits (repoSlug : String) (prID : Int)
    (postRes : String → Option String) (l : List String) (st : StoreState) :
    ((l.foldl (createdSaveStep repoSlug prID postRes) st).prCommits) = st.prCommits := by
  induction l generalizing st with
  | nil => rfl
  | cons c t ih => rw [List.foldl_cons, ih, createdSaveStep_prCommits]

theorem onPRCreated_unique (postRes : String → Option String) (st : StoreState)
    (p : bbEventPayload) (h : UniqueMsgKeys st.prMessages) :
    UniqueMsgKeys (onPRCreated postRes st p).1.prMessages := by
  rw [onPRCreated]
  split
  · exact h
  · exact foldl_createdSaveStep_unique _ _ _ _ _ h

/-- C1 counterexample: the claim quantifies over every recognized event
kind, but the two repo:commit_status_* kinds are routed to
onCommitStatus before the signature check.  Concretely, with a webhook
secret on file for acme/site and a signature "bad" that verifies as
false, Handle still accepts a commit-status event and mutates the
build-status table. -/
theorem commitStatusBypassesSignature_cex :
    getWebhookSecret stSecretOnly.webhookSecrets sampleCS.repositoryFullName = "s3c"
    ∧ verifySignature (fun _ _ => "d0") "s3c" "body" "bad" = false
    ∧ Handle (fun _ _ => "d0") (fun _ => none) (fun _ => some sampleCS) (fun _ => none)
        stSecretOnly "repo:commit_status_created" "body" "bad"
      = (HandleResult.okAccepted,
         { stSecretOnly with buildStatuses := [⟨"acme/site", "abc123", "FAILED", "ci", ""⟩] }, [])
    ∧ ({ stSecretOnly with buildStatuses := [⟨"acme/site", "abc123", "FAILED", "ci", ""⟩] }
        : StoreState) ≠ stSecretOnly := by
  refine ⟨rfl, by decide, rfl, by decide⟩

/-- C1 (amended): for the six pullrequest:* event kinds with a parseable
payload, when a WebhookSecret is on file for the target repository and
the signature header does not verify, Handle rejects the event as
unauthorized with the store unchanged and no outbound calls; when no
secret is on file the event is accepted unverified.  (The two
repo:commit_status_* kinds bypass signature verification entirely, see
the counterexample.) -/
theorem prEventSignatureGate
    (mac : String → String → String)
    (parsePR : String → Option bbEventPayload)
    (parseCS : String → Option bbCommitStatusPayload)
    (postRes : String → Option String)
    (st : StoreState) (event body signature : String) (payload : bbEventPayload)
    (hev : event = "pullrequest:created" ∨ event = "pullrequest:fulfilled" ∨
      event = "pullrequest:rejected" ∨ event = "pullrequest:approved" ∨
      event = "pullrequest:unapproved" ∨ event = "pullrequest:comment_created")
    (hparse : parsePR body = some payload) :
    (getWebhookSecret st.webhookSecrets payload.repositoryFullName ≠ "" →
      verifySignature mac (getWebhookSecret st.webhookSecrets payload.repositoryFullName)
        body signature = false →
      Handle mac parsePR parseCS postRes st event body signature =
        (HandleResult.unauthorized, st, []))
    ∧ (getWebhookSecret st.webhookSecrets payload.repositoryFullName = "" →
      (Handle mac parsePR parseCS postRes st event body signature).1 =
        HandleResult.okAccepted) := by
  have hr : recognizedEvent event = true := by
    rcases hev with rfl | rfl | rfl | rfl | rfl | rfl <;> rfl
  have hc : isCommitStatusEvent event = false := by
    rcases hev with rfl | rfl | rfl | rfl | rfl | rfl <;> rfl
  constructor
  · intro h1 h2
    simp [Handle, hr, hc, hparse, h1, h2]
  · intro h0
    simp [Handle, hr, hc, hparse, h0]

/-- Witness for prEventSignatureGate: a created event for acme/site,
whose stored secret is "s3c", carrying the unverifiable signature
"bad", is rejected as unauthorized with no state change. -/
theorem prEventSignatureGate_witness :
    (getWebhookSecret stSecretOnly.webhookSecrets samplePayload.repositoryFullName ≠ "")
    ∧ verifySignature (fun _ _ => "d0")
        (getWebhookSecret stSecretOnly.webhookSecrets samplePayload.repositoryFullName)
        "body" "bad" = false
    ∧ Handle (fun _ _ => "d0") (fun _ => some samplePayload) (fun _ => none) (fun _ => none)
        stSecretOnly "pullrequest:created" "body" "bad" =
      (HandleResult.unauthorized, stSecretOnly, []) :=
  ⟨by decide, by decide,
    (prEventSignatureGate (fun _ _ => "d0") (fun _ => some samplePayload) (fun _ => none)
      (fun _ => none) stSecretOnly "pullrequest:created" "body" "bad" samplePayload
      (Or.inl rfl) rfl).1 (by decide) (by decide)⟩

/-- C2 counterexample: a created event for a repository with zero
subscribed channels returns with the store untouched — in particular no
PullRequestCard record is persisted for (acme/site, 7), contradicting
the claim that every created event persists one. -/
theorem createdWithoutSubscribersPersistsNothing_cex :
    channelsForRepo stEmpty.subscriptions samplePayload.repositoryFullName = []
    ∧ onPRCreated (fun _ => some "111.222") stEmpty samplePayload = (stEmpty, [])
    ∧ getPRCommit ((onPRCreated (fun _ => some "111.222") stEmpty samplePayload).1.prCommits)
        "acme/site" 7 = none :=
  ⟨rfl, rfl, rfl⟩

/-- C2 (amended): a created event persists the PullRequestCard record
(overwriting any existing record at the same key) only when at least
one channel is subscribed, in which case one message is posted per
subscribed channel; with zero subscribed channels nothing is persisted,
no message is sent and no pointer is created, and the handler returns
normally (not an error). -/
theorem createdPersistsOnlyWithSubscribers (postRes : String → Option String)
    (st : StoreState) (p : bbEventPayload) :
    (channelsForRepo st.subscriptions p.repositoryFullName = [] →
      onPRCreated postRes st p = (st, []))
    ∧ (channelsForRepo st.subscriptions p.repositoryFullName ≠ [] →
      (onPRCreated postRes st p).1.prCommits = savePRCommit st.prCommits (prCommitRecordOf p)
      ∧ (onPRCreated postRes st p).2 =
          (channelsForRepo st.subscriptions p.repositoryFullName).map
            (fun ch => Effect.postMessage ch (buildPRBlocks (buildCardFromPayload st p "")))) := by
  constructor
  · intro h
    simp [onPRCreated, h]
  · intro h
    have hne : (channelsForRepo st.subscriptions p.repositoryFullName).isEmpty = false := by
      rw [List.isEmpty_eq_false]
      exact h
    rw [onPRCreated, hne]
    exact ⟨foldl_createdSaveStep_prCommits _ _ _ _ _, rfl⟩

/-- Witness for createdPersistsOnlyWithSubscribers at both branches:
with no subscribers the handler is a no-op returning normally; with one
subscriber the commit record is upserted. -/
theorem createdPersistsOnlyWithSubscribers_witness :
    (channelsForRepo stEmpty.subscriptions samplePayload.repositoryFullName = []
      ∧ onPRCreated (fun _ => some "1.2") stEmpty samplePayload = (stEmpty, []))
    ∧ (channelsForRepo stOneSub.subscriptions samplePayload.repositoryFullName ≠ []
      ∧ (onPRCreated (fun _ => some "1.2") stOneSub samplePayload).1.prCommits =
        savePRCommit stOneSub.prCommits (prCommitRecordOf samplePayload)) :=
  ⟨⟨rfl, (createdPersistsOnlyWithSubscribers (fun _ => some "1.2") stEmpty samplePayload).1 rfl⟩,
   ⟨by decide,
    ((createdPersistsOnlyWithSubscribers (fun _ => some "1.2") stOneSub samplePayload).2
      (by decide)).1⟩⟩

/-- C3: a merged or declined event on a PR with zero recorded message
pointers posts exactly one fresh standalone message per
currently-subscribed channel (the map over channelsForRepo), with every
emitted effect a postMessage — no message edits and no thread replies
— and no error. -/
theorem mergedDeclinedFallback (st : StoreState) (p : bbEventPayload)
    (h : getPRMessages st.prMessages p.repositoryFullName p.pullRequest.id = []) :
    ((onPRMerged st p).2 =
      (channelsForRepo st.subscriptions p.repositoryFullName).map
        (fun ch => Effect.postMessage ch (buildPRBlocks (buildCardFromPayload st p
          (":tada: Merged by " ++ resolveUser st p.actorDisplayName)))))
    ∧ ((onPRDeclined st p).2 =
      (channelsForRepo st.subscriptions p.repositoryFullName).map
        (fun ch => Effect.postMessage ch (buildPRBlocks (buildCardFromPayload st p
          (":x: Declined by " ++ resolveUser st p.actorDisplayName)))))
    ∧ (∀ e ∈ (onPRMerged st p).2, ∃ ch blocks, e = Effect.postMessage ch blocks)
    ∧ (∀ e ∈ (onPRDeclined st p).2, ∃ ch blocks, e = Effect.postMessage ch blocks) := by
  have hm : (onPRMerged st p).2 =
      (channelsForRepo st.subscriptions p.repositoryFullName).map
        (fun ch => Effect.postMessage ch (buildPRBlocks (buildCardFromPayload st p
          (":tada: Merged by " ++ resolveUser st p.actorDisplayName)))) := by
    simp [onPRMerged, updateAndReply, h]
  have hd : (onPRDeclined st p).2 =
      (channelsForRepo st.subscriptions p.repositoryFullName).map
        (fun ch => Effect.postMessage ch (buildPRBlocks (buildCardFromPayload st p
          (":x: Declined by " ++ resolveUser st p.actorDisplayName)))) := by
    simp [onPRDeclined, updateAndReply, h]
  refine ⟨hm, hd, fun e hmem => ?_, fun e hmem => ?_⟩
  · rw [hm] at hmem
    rcases List.mem_map.mp hmem with ⟨ch, _, rfl⟩
    exact ⟨ch, _, rfl⟩
  · rw [hd] at hmem
    rcases List.mem_map.mp hmem with ⟨ch, _, rfl⟩
    exact ⟨ch, _, rfl⟩

/-- Witness for mergedDeclinedFallback: a merged event for PR 7 with no
stored pointer and one subscribed channel C1 produces exactly the one
standalone post in C1. -/
theorem mergedDeclinedFallback_witness :
    getPRMessages stOneSub.prMessages samplePayload.repositoryFullName
      samplePayload.pullRequest.id = []
    ∧ (onPRMerged stOneSub samplePayload).2 =
      (channelsForRepo stOneSub.subscriptions samplePayload.repositoryFullName).map
        (fun ch => Effect.postMessage ch (buildPRBlocks (buildCardFromPayload stOneSub samplePayload
          (":tada: Merged by " ++ resolveUser stOneSub samplePayload.actorDisplayName)))) :=
  ⟨rfl, (mergedDeclinedFallback stOneSub samplePayload rfl).1⟩

/-- C4 counterexample: the claim says a pointer is never reassigned
except by the explicit re-post fallback; but replaying a created event
for (acme/site, 7) while the pointer 111.222 is stored posts a new
message and SavePRMessage's upsert reassigns the pointer to the new ts
333.444 — and the actor is onPRCreated, not the fallback (which records
nothing). -/
theorem pointerReassignedOutsideFallback_cex :
    stPointer.prMessages = [⟨"acme/site", 7, "C1", "111.222"⟩]
    ∧ (onPRCreated (fun _ => some "333.444") stPointer samplePayload).1.prMessages
        = [⟨"acme/site", 7, "C1", "333.444"⟩] :=
  ⟨rfl, rfl⟩

/-- C4 (amended): at most one live pointer per (repository, prNumber,
channel) at any time — replaying an identical created event twice still
leaves at most one stored pointer per key — and the merged/declined
re-post fallback never records or reassigns any pointer; but a replayed
created delivery does reassign the existing pointer to the newly posted
message's ts (see the counterexample). -/
theorem pointerPerChannelUnique (postRes1 postRes2 : String → Option String) (st : StoreState)
    (p : bbEventPayload) (h : UniqueMsgKeys st.prMessages) :
    (UniqueMsgKeys (onPRCreated postRes2 (onPRCreated postRes1 st p).1 p).1.prMessages)
    ∧ (∀ repoSlug prID channelID,
        ((onPRCreated postRes2 (onPRCreated postRes1 st p).1 p).1.prMessages.filter
          (msgKeyMatch repoSlug prID channelID)).length ≤ 1)
    ∧ (∀ st2 p2, (onPRMerged st2 p2).1 = st2 ∧ (onPRDeclined st2 p2).1 = st2) := by
  have hu : UniqueMsgKeys (onPRCreated postRes2 (onPRCreated postRes1 st p).1 p).1.prMessages :=
    onPRCreated_unique _ _ _ (onPRCreated_unique _ _ _ h)
  exact ⟨hu, fun repoSlug prID channelID =>
    unique_filter_length_le_one _ hu repoSlug prID channelID,
    fun st2 p2 => ⟨rfl, rfl⟩⟩

/-- Witness for pointerPerChannelUnique: replaying the created event for
PR 7 twice against the store already holding its pointer leaves at most
one stored pointer for (acme/site, 7, C1). -/
theorem pointerPerChannelUnique_witness :
    UniqueMsgKeys stPointer.prMessages
    ∧ ((onPRCreated (fun _ => some "555.666")
        (onPRCreated (fun _ => some "333.444") stPointer samplePayload).1
        samplePayload).1.prMessages.filter (msgKeyMatch "acme/site" 7 "C1")).length ≤ 1 :=
  have h : UniqueMsgKeys stPointer.prMessages := List.pairwise_singleton _ _
  ⟨h, (pointerPerChannelUnique (fun _ => some "333.444") (fun _ => some "555.666")
    stPointer samplePayload h).2.1 "acme/site" 7 "C1"⟩

/-- C5: adding the same approver twice yields the same ApprovalSet as
adding once, and removing an absent member leaves the set unchanged;
both operations are total (never an error). -/
theorem approvalMembershipIdempotent (rows : List ApprovalRow) (repoSlug : String)
    (prID : Int) (userName : String) :
    addApproval (addApproval rows repoSlug prID userName) repoSlug prID userName =
      addApproval rows repoSlug prID userName
    ∧ ((⟨repoSlug, prID, userName⟩ : ApprovalRow) ∉ rows →
      removeApproval rows repoSlug prID userName = rows) := by
  constructor
  · by_cases h : rows.any (approvalKeyMatch repoSlug prID userName) = true
    · simp [addApproval, h]
    · simp [addApproval, h, List.any_append, approvalKeyMatch]
  · intro h
    rw [removeApproval, List.filter_eq_self]
    intro r hr
    have hne : r ≠ ⟨repoSlug, prID, userName⟩ := fun e => h (e ▸ hr)
    exact (Bool.not_eq_true' _).mpr
      (Bool.eq_false_iff.mpr (fun ht => hne ((approvalKeyMatch_iff _ _ _ _).mp ht)))

/-- Witness for approvalMembershipIdempotent: alice's approval of PR 7
added twice equals added once, and removing bob (not a member) changes
nothing. -/
theorem approvalMembershipIdempotent_witness :
    (addApproval (addApproval [] "acme/site" 7 "alice") "acme/site" 7 "alice" =
      addApproval [] "acme/site" 7 "alice")
    ∧ ((⟨"acme/site", 7, "bob"⟩ : ApprovalRow) ∉ [(⟨"acme/site", 7, "alice"⟩ : ApprovalRow)]
      ∧ removeApproval [(⟨"acme/site", 7, "alice"⟩ : ApprovalRow)] "acme/site" 7 "bob" =
        [(⟨"acme/site", 7, "alice"⟩ : ApprovalRow)]) :=
  ⟨(approvalMembershipIdempotent [] "acme/site" 7 "alice").1,
   by decide,
   (approvalMembershipIdempotent [(⟨"acme/site", 7, "alice"⟩ : ApprovalRow)]
     "acme/site" 7 "bob").2 (by decide)⟩

/-- C6: the threaded reply for a commented event quotes the comment body
truncated at the fixed 300 budget: a 400-long body is cut to exactly
its first 300 units followed by the ellipsis marker, a 200-long body is
quoted verbatim, and onPRComment threads exactly that text under every
stored pointer.  (Go measures bytes; the model's Char units coincide
with bytes on single-byte text.) -/
theorem commentTruncationBudget (body : String) :
    (body.data.length = 400 →
      (truncateComment body).data = body.data.take 300 ++ "…".data)
    ∧ (body.data.length = 200 → truncateComment body = body)
    ∧ (∀ st p, (onPRComment st p).2 =
        threadReply st p.repositoryFullName p.pullRequest.id
          (commentReply (resolveUser st p.actorDisplayName) (truncateComment p.commentRaw))) := by
  refine ⟨fun h => ?_, fun h => ?_, fun st p => rfl⟩
  · rw [truncateComment, if_pos (by omega), String.data_append]
  · rw [truncateComment, if_neg (by omega)]

/-- Witness for commentTruncationBudget at a 400-long and a 200-long
body. -/
theorem commentTruncationBudget_witness :
    ((String.mk (List.replicate 400 'a')).data.length = 400
      ∧ (truncateComment (String.mk (List.replicate 400 'a'))).data =
        (String.mk (List.replicate 400 'a')).data.take 300 ++ "…".data)
    ∧ ((String.mk (List.replicate 200 'b')).data.length = 200
      ∧ truncateComment (String.mk (List.replicate 200 'b')) = String.mk (List.replicate 200 'b')) :=
  have h4 : (String.mk (List.replicate 400 'a')).data.length = 400 := by
    rw [String.data, List.length_replicate]
  have h2 : (String.mk (List.replicate 200 'b')).data.length = 200 := by
    rw [String.data, List.length_replicate]
  ⟨⟨h4, (commentTruncationBudget (String.mk (List.replicate 400 'a'))).1 h4⟩,
   ⟨h2, (commentTruncationBudget (String.mk (List.replicate 200 'b'))).2.1 h2⟩⟩

/-- C7: a commit-status event whose hash matches no stored PR's source
commit still upserts the BuildStatusRecord for (repository, hash), and
produces zero outbound messages of any kind. -/
theorem unknownCommitBuildStatusSilent (st : StoreState) (p : bbCommitStatusPayload)
    (h : ∀ r ∈ st.prCommits, ¬(r.repoSlug = p.repositoryFullName ∧ r.commitHash = p.commitHash)) :
    onCommitStatus st p =
      ({ st with
          buildStatuses := saveBuildStatus st.buildStatuses p.repositoryFullName p.commitHash p.state p.name p.url }, []) := by
  have hids : getPRsByCommit st.prCommits p.repositoryFullName p.commitHash = [] := by
    rw [getPRsByCommit, List.map_eq_nil_iff, List.filter_eq_nil_iff]
    intro r hr
    simpa using h r hr
  simp [onCommitStatus, hids]

/-- Witness for unknownCommitBuildStatusSilent: a FAILED status for a
hash with no stored PR updates only the build-status table and emits
nothing. -/
theorem unknownCommitBuildStatusSilent_witness :
    (∀ r ∈ stEmpty.prCommits, ¬(r.repoSlug = sampleCS.repositoryFullName
      ∧ r.commitHash = sampleCS.commitHash))
    ∧ onCommitStatus stEmpty sampleCS =
      ({ stEmpty with
          buildStatuses := saveBuildStatus stEmpty.buildStatuses sampleCS.repositoryFullName sampleCS.commitHash sampleCS.state sampleCS.name sampleCS.url }, []) :=
  have h : ∀ r ∈ stEmpty.prCommits, ¬(r.repoSlug = sampleCS.repositoryFullName
      ∧ r.commitHash = sampleCS.commitHash) := by simp [stEmpty]
  ⟨h, unknownCommitBuildStatusSilent stEmpty sampleCS h⟩

/-- C8: a commented event mutates no store state at all (in particular
neither the PR card record nor the approval set), and with zero stored
pointers it produces no output whatsoever — no fallback post, no edit,
no thread reply. -/
theorem commentMutatesNothing (st : StoreState) (p : bbEventPayload) :
    (onPRComment st p).1 = st
    ∧ (getPRMessages st.prMessages p.repositoryFullName p.pullRequest.id = [] →
      (onPRComment st p).2 = []) :=
  ⟨rfl, fun h => by simp [onPRComment, threadReply, h]⟩

/-- Witness for commentMutatesNothing: a comment on PR 7 with no stored
pointer produces no effects. -/
theorem commentMutatesNothing_witness :
    getPRMessages stOneSub.prMessages samplePayload.repositoryFullName
      samplePayload.pullRequest.id = []
    ∧ (onPRComment stOneSub samplePayload).2 = [] :=
  ⟨rfl, (commentMutatesNothing stOneSub samplePayload).2 rfl⟩

/-- C9: verifySignature returns false for every signature that does not
begin with the "sha256=" algorithm tag, whatever the secret, body and
digest function — so a missing or untagged signature header is always
rejected once a secret is configured. -/
theorem verifySignatureRequiresTag (mac : String → String → String)
    (secret body signature : String)
    (h : "sha256=".data.isPrefixOf signature.data = false) :
    verifySignature mac secret body signature = false := by
  simp [verifySignature, h]

/-- Witness for verifySignatureRequiresTag: the untagged header "bad" is
rejected. -/
theorem verifySignatureRequiresTag_witness :
    "sha256=".data.isPrefixOf ("bad" : String).data = false
    ∧ verifySignature (fun _ _ => "d0") "s3c" "body" "bad" = false :=
  ⟨by decide, verifySignatureRequiresTag (fun _ _ => "d0") "s3c" "body" "bad" (by decide)⟩

/-- C10: buildApprovalStatus returns "" exactly when the resolved
approver list is empty; the rendered card carries a trailing context
block if and only if its status line is non-empty; and the status line
buildCardFromPayload stores is exactly the annotation it is given — so
a card re-rendered after the last approver's removal carries no status
annotation. -/
theorem approvalStatusLinePresence :
    (∀ resolved : List String, (buildApprovalStatus resolved = "" ↔ resolved = []))
    ∧ (∀ card : prCard, ((∃ s, Block.context s ∈ buildPRBlocks card) ↔ card.statusLine ≠ ""))
    ∧ (∀ st p line, (buildCardFromPayload st p line).statusLine = line) := by
  refine ⟨fun resolved => ?_, fun card => ?_, fun st p line => rfl⟩
  · cases resolved with
    | nil => simp [buildApprovalStatus]
    | cons a t =>
      simp only [buildApprovalStatus, List.isEmpty_cons, Bool.false_eq_true, if_false]
      constructor
      · intro h
        have hl := congrArg String.length h
        rw [String.length_append] at hl
        have hp : String.length ":white_check_mark: Approved by " = 31 := rfl
        simp [hp] at hl
      · intro h
        exact absurd h (List.cons_ne_nil a t)
  · by_cases hs : card.statusLine = ""
    · simp [buildPRBlocks, hs]
    · simp only [buildPRBlocks, if_pos hs, ne_eq, hs, not_false_iff, iff_true]
      exact ⟨card.statusLine, by simp⟩

/-- Witness for approvalStatusLinePresence: the empty approver list
renders no status line, a singleton list renders a non-empty one. -/
theorem approvalStatusLinePresence_witness :
    buildApprovalStatus [] = "" ∧ buildApprovalStatus ["*alice*"] ≠ "" :=
  ⟨(approvalStatusLinePresence.1 []).mpr rfl,
   fun h => (by decide : ("*alice*" :: [] : List String) ≠ []) ((approvalStatusLinePresence.1 ["*alice*"]).mp h)⟩
